import Mathlib

/-!
Shallow embedding of the upload–notify–await coordination logic of
`src/App.js` (the `App` React component of the vehicle-number-identifier
repository), together with proofs about the claims of the specification.

The component's reactive state (`useState` hooks and the `responseTimeoutRef`
ref cell) is modelled as an explicit record `AppState`; each event handler and
helper of the source becomes a state-transformer on that record.  Timers
(`setTimeout` / `clearTimeout`) are modelled operationally: `setTimeout`
allocates a fresh id and records the pending timer (with its delay in ms),
`clearTimeout` removes it, and a separate `fireTimeout` transition models the
runtime invoking the callback of a still-pending timer.  The WebSocket's
`readyState` and the outcome of `JSON.parse` on an inbound frame are inputs
supplied by the environment, as they are decided by the browser runtime, not
by this code.
-/

namespace VehicleApp

/-- A selected file, as the handlers see it: `name` and `size` are the only
properties `App.js` reads from the `File` object. -/
structure JsFile where
  name : String
  size : Nat
deriving DecidableEq, Repr

/-- The WebSocket `readyState` values (CONNECTING = 0, OPEN = 1, CLOSING = 2,
CLOSED = 3).  `sendMessage` compares against `WebSocket.OPEN`. -/
inductive ReadyState where
  | connecting
  | opened
  | closing
  | closedSt
deriving DecidableEq, Repr

/-- The outcome of `JSON.parse(event.data)` followed by reading `data.message`
on an inbound frame: either the parse throws (`parseError`), or it yields an
object whose `message` field is the given string, or is absent
(`parsed none`; the template literal then stringifies it as `"undefined"`). -/
inductive InboundFrame where
  | parseError
  | parsed (messageField : Option String)
deriving DecidableEq, Repr

/-- The outbound payload built by `sendMessage`:
`{ action: "sendVehicleInfo", message: { bucket, key } }`. -/
structure NotificationMessage where
  action : String
  bucket : String
  key : String
deriving DecidableEq, Repr

/-- The component's state.  `image`, `message`, `numberPlate`,
`socketStatusColour` are the `useState` hooks of the same names;
`responseTimeoutRef` is the ref cell holding the id of the last timer stored
by `sendMessage` (the callback of a fired timer does not null it, and
`sendMessage` overwrites it without clearing the previous timer, exactly as
the source does).  `wsState` is `none` while the `ws` state variable is still
`undefined`, and `some r` once the socket object exists with readyState `r`.
`nextTimerId` and `pendingTimers` model the runtime's timer table: pairs
`(id, delayMs)` of timers that were set and have neither been cleared nor
fired.  `sent` records every payload passed to `ws.send`, and `published`
records every string passed to `setMessage`, in order; both are observation
traces of calls the component makes, added so properties about "what was
sent/shown" can be stated. -/
structure AppState where
  image : Option JsFile
  message : String
  numberPlate : String
  socketStatusColour : String
  wsState : Option ReadyState
  nextTimerId : Nat
  pendingTimers : List (Nat × Nat)
  responseTimeoutRef : Option Nat
  sent : List NotificationMessage
  published : List String
deriving DecidableEq, Repr

/-- Fallback value of `REACT_APP_S3_BUCKET` (the configuration default in
`App.js`). -/
def bucketName : String := "vehicle-identifier-bucket"

/-- The fixed response window handed to `setTimeout` in `sendMessage`. -/
def responseTimeoutMs : Nat := 15000

/-- `setMessage(m)`: updates the `message` state and appends to the
`published` observation trace. -/
def setMessage (m : String) (s : AppState) : AppState :=
  { s with message := m, published := s.published ++ [m] }

/-- `clearTimeout(id)` on the runtime's timer table: removes the (first)
pending timer with the given id; a no-op on an id that is not pending. -/
def clearTimeout (id : Nat) (l : List (Nat × Nat)) : List (Nat × Nat) :=
  l.eraseP (fun p => p.1 == id)

/-- The initial state of the component: `useState(null)`, `useState("")`,
`useState(undefined)`, `useState("")`, `useState("grey")`, `useRef(null)`,
with an empty timer table and empty observation traces. -/
def initialState : AppState :=
  { image := none
    message := ""
    numberPlate := ""
    socketStatusColour := "grey"
    wsState := none
    nextTimerId := 0
    pendingTimers := []
    responseTimeoutRef := none
    sent := []
    published := [] }

/-- `ws.onopen`: sets the status indicator green.  (The `readyState`
transition to OPEN is performed by the browser on the socket object itself,
so `wsState` is environment-driven and not written here.) -/
def wsOnopen (s : AppState) : AppState :=
  { s with socketStatusColour := "green" }

/-- The string a JavaScript template literal produces for `data.message`:
the field itself when present, `"undefined"` when absent. -/
def jsFieldString : Option String → String
  | none => "undefined"
  | some t => t

/-- `ws.onmessage`: first clears the timer referenced by
`responseTimeoutRef.current` (if any) and nulls the ref, then parses the
frame.  A parse failure is caught and only logged — but note the timer was
already cleared.  On a successful parse the handler sets
`message = "Completed"` and `numberPlate = "Number plate: " + data.message`,
with no check that the `message` field exists. -/
def wsOnmessage (frame : InboundFrame) (s : AppState) : AppState :=
  let s1 :=
    match s.responseTimeoutRef with
    | some id =>
        { s with pendingTimers := clearTimeout id s.pendingTimers
                 responseTimeoutRef := none }
    | none => s
  match frame with
  | .parseError => s1
  | .parsed f =>
      { setMessage "Completed" s1 with
          numberPlate := "Number plate: " ++ jsFieldString f }

/-- `ws.onerror`: sets the indicator red and publishes an error status.  It
does not touch the timer table, the ref, or `numberPlate`. -/
def wsOnerror (s : AppState) : AppState :=
  setMessage "WebSocket error while processing image"
    { s with socketStatusColour := "red" }

/-- `ws.onclose`: sets the indicator grey and nothing else. -/
def wsOnclose (s : AppState) : AppState :=
  { s with socketStatusColour := "grey" }

/-- The runtime firing the timer with the given id, if it is still pending:
the timer leaves the pending table and its callback runs, publishing
`"No response from server yet. Check backend logs."`.  The callback does not
null `responseTimeoutRef.current`.  Firing an id that is not pending does
nothing. -/
def fireTimeout (id : Nat) (s : AppState) : AppState :=
  if s.pendingTimers.any (fun p => p.1 == id) then
    setMessage "No response from server yet. Check backend logs."
      { s with pendingTimers := clearTimeout id s.pendingTimers }
  else s

/-- JavaScript `a || b` on an optional number: `undefined` and `0` are falsy,
so the default is taken for both. -/
def jsOrNat (v : Option Nat) (d : Nat) : Nat :=
  match v with
  | none => d
  | some n => if n = 0 then d else n

/-- `Math.round` on a nonnegative finite value: `⌊x + 1/2⌋`. -/
def jsRound (x : ℚ) : ℤ := ⌊x + 1 / 2⌋

/-- The percentage computed by the `httpUploadProgress` handler when
`total > 0`: `Math.min(100, Math.round((loaded / total) * 100))`. -/
def uploadPercent (loaded total : Nat) : ℤ :=
  min 100 (jsRound ((loaded : ℚ) / (total : ℚ) * 100))

/-- The `httpUploadProgress` handler.  `loaded := progress?.loaded || 0`;
`total := progress?.total || image.size || 0` (so a missing or zero `total`
falls back to the file's size, and `jsOrNat (some fileSize) 0 = fileSize`).
With `total > 0` it publishes the clamped percentage, otherwise the
indeterminate `"Uploading..."`. -/
def onUploadProgress (fileSize : Nat) (loadedField totalField : Option Nat)
    (s : AppState) : AppState :=
  let loaded := jsOrNat loadedField 0
  let total := jsOrNat totalField fileSize
  if 0 < total then
    setMessage ("Uploading... " ++ toString (uploadPercent loaded total) ++ "%") s
  else
    setMessage "Uploading..." s

/-- One run of the S3 transfer, as the environment drives it: the sequence of
`httpUploadProgress` events `(progress?.loaded, progress?.total)` delivered
before completion, and whether `parallelUploads3.done()` resolves
(`succeeds = true`) or rejects. -/
structure UploadRun where
  events : List (Option Nat × Option Nat)
  succeeds : Bool
deriving DecidableEq, Repr

/-- `uploadFileToS3(image)`: publishes `"Uploading... 0%"`, processes each
progress event, then on resolution publishes `"Upload is done"` and returns
`true`, or on rejection publishes `"Upload is failed"` and returns `false`. -/
def uploadFileToS3 (file : JsFile) (run : UploadRun) (s : AppState) :
    AppState × Bool :=
  let s0 := setMessage "Uploading... 0%" s
  let s1 := run.events.foldl
    (fun st e => onUploadProgress file.size e.1 e.2 st) s0
  if run.succeeds then (setMessage "Upload is done" s1, true)
  else (setMessage "Upload is failed" s1, false)

/-- `sendMessage(imageName)`.  With `ws` undefined it publishes
`"WebSocket is not connected"` and returns; with `readyState !== OPEN` it
publishes `"WebSocket not ready yet. Please try again in a moment"` and
returns.  Otherwise it publishes the sending status, sends the payload,
publishes `"Processing image...."` and stores a fresh 15 000 ms timeout in
`responseTimeoutRef.current` — overwriting the ref without clearing any
previous timer.  The boolean of the pair records whether `ws.send` ran. -/
def sendMessage (imageName : String) (s : AppState) : AppState × Bool :=
  match s.wsState with
  | none => (setMessage "WebSocket is not connected" s, false)
  | some rs =>
      if rs = ReadyState.opened then
        let s1 := setMessage ("Sending image " ++ imageName ++ " info....") s
        let payload : NotificationMessage :=
          { action := "sendVehicleInfo", bucket := bucketName, key := imageName }
        let s2 := { s1 with sent := s1.sent ++ [payload] }
        let s3 := setMessage "Processing image...." s2
        ({ s3 with
            pendingTimers := s3.pendingTimers ++ [(s3.nextTimerId, responseTimeoutMs)]
            responseTimeoutRef := some s3.nextTimerId
            nextTimerId := s3.nextTimerId + 1 }, true)
      else
        (setMessage "WebSocket not ready yet. Please try again in a moment" s, false)

/-- `processImage(event)`: with no file selected (`event.target.files?.[0]`
undefined) it returns at once.  Otherwise it resets `numberPlate`, stores the
file for preview, publishes `"Uploading... 0%"`, runs the upload, and only on
upload success calls `sendMessage` with the file's name. -/
def processImage (fileSelected : Option JsFile) (run : UploadRun)
    (s : AppState) : AppState :=
  match fileSelected with
  | none => s
  | some file =>
      let s0 := { s with numberPlate := "Number plate: ....." }
      let s1 := { s0 with image := some file }
      let s2 := setMessage "Uploading... 0%" s1
      let r := uploadFileToS3 file run s2
      if r.2 then (sendMessage file.name r.1).1 else r.1

/-- Every pending timer id is below the allocation counter — true of every
state reachable from `initialState`, and exactly what makes the id allocated
by `sendMessage` fresh. -/
def TimersWf (s : AppState) : Prop :=
  ∀ p ∈ s.pendingTimers, p.1 < s.nextTimerId

instance (s : AppState) : Decidable (TimersWf s) := by
  unfold TimersWf; infer_instance

/-- The percentage formula exactly as §4.2 of the specification words it:
`round(min(1, loaded/total) * 100)`, with `round x = ⌊x + 1/2⌋` on
nonnegative values.  This is a spec-side definition, written for the
refinement comparison with the source-side `uploadPercent`. -/
def specPercent (loaded total : Nat) : ℤ :=
  ⌊min 1 ((loaded : ℚ) / (total : ℚ)) * 100 + 1 / 2⌋

/-- The sequence of percentages the progress handler publishes for a given
sequence of `(loaded, total)` progress events: one entry per event whose
resolved total is positive (events with resolved total zero publish the
indeterminate status instead and contribute no percentage). -/
def emittedPercents (fileSize : Nat) (events : List (Option Nat × Option Nat)) :
    List ℤ :=
  events.filterMap (fun e =>
    if 0 < jsOrNat e.2 fileSize then
      some (uploadPercent (jsOrNat e.1 0) (jsOrNat e.2 fileSize))
    else none)

/-- The component state once the socket exists and has reached OPEN, with no
work in flight: the scenario base state for sends. -/
def openState : AppState :=
  { initialState with wsState := some ReadyState.opened }

/-- The state of a Session that has sent its notification and is awaiting a
result: `sendMessage` succeeded from `openState`, timer 0 (15 000 ms) is
pending and `responseTimeoutRef.current = 0`. -/
def awaitingState : AppState :=
  (sendMessage "car.jpg" openState).1

end VehicleApp

namespace VehicleApp

/-! ### Basic facts about the transitions -/

lemma setMessage_pendingTimers (m : String) (s : AppState) :
    (setMessage m s).pendingTimers = s.pendingTimers := rfl

lemma setMessage_responseTimeoutRef (m : String) (s : AppState) :
    (setMessage m s).responseTimeoutRef = s.responseTimeoutRef := rfl

lemma setMessage_sent (m : String) (s : AppState) :
    (setMessage m s).sent = s.sent := rfl

lemma setMessage_wsState (m : String) (s : AppState) :
    (setMessage m s).wsState = s.wsState := rfl

lemma setMessage_nextTimerId (m : String) (s : AppState) :
    (setMessage m s).nextTimerId = s.nextTimerId := rfl

lemma setMessage_message (m : String) (s : AppState) :
    (setMessage m s).message = m := rfl

/-- The progress handler only ever calls `setMessage`. -/
lemma onUploadProgress_eq_setMessage (fs : Nat) (a b : Option Nat)
    (s : AppState) : ∃ m, onUploadProgress fs a b s = setMessage m s := by
  by_cases h : 0 < jsOrNat b fs
  · exact ⟨"Uploading... " ++ toString (uploadPercent (jsOrNat a 0) (jsOrNat b fs)) ++ "%",
      by simp only [onUploadProgress]; rw [if_pos h]⟩
  · exact ⟨"Uploading...", by simp only [onUploadProgress]; rw [if_neg h]⟩

/-- Folding the progress handler over any event list changes only `message`
and `published`. -/
lemma progressFold_core (fs : Nat) (events : List (Option Nat × Option Nat))
    (s : AppState) :
    (events.foldl (fun st e => onUploadProgress fs e.1 e.2 st) s).pendingTimers
        = s.pendingTimers ∧
    (events.foldl (fun st e => onUploadProgress fs e.1 e.2 st) s).responseTimeoutRef
        = s.responseTimeoutRef ∧
    (events.foldl (fun st e => onUploadProgress fs e.1 e.2 st) s).sent = s.sent ∧
    (events.foldl (fun st e => onUploadProgress fs e.1 e.2 st) s).wsState
        = s.wsState ∧
    (events.foldl (fun st e => onUploadProgress fs e.1 e.2 st) s).nextTimerId
        = s.nextTimerId := by
  induction events generalizing s with
  | nil => exact ⟨rfl, rfl, rfl, rfl, rfl⟩
  | cons e tl ih =>
      obtain ⟨m, hm⟩ := onUploadProgress_eq_setMessage fs e.1 e.2 s
      rw [List.foldl_cons, hm]
      obtain ⟨h1, h2, h3, h4, h5⟩ := ih (setMessage m s)
      exact ⟨h1, h2, h3, h4, h5⟩

/-- Shape of a successful `sendMessage` from an OPEN socket: the payload goes
out, `"Processing image...."` is the final status, and a fresh 15 000 ms
timer is appended and stored in the ref — without clearing any older timer. -/
lemma sendMessage_opened (name : String) (s : AppState)
    (h : s.wsState = some ReadyState.opened) :
    sendMessage name s =
      ({ s with
          message := "Processing image...."
          published := s.published ++
            ["Sending image " ++ name ++ " info....", "Processing image...."]
          sent := s.sent ++
            [{ action := "sendVehicleInfo", bucket := bucketName, key := name }]
          pendingTimers := s.pendingTimers ++ [(s.nextTimerId, responseTimeoutMs)]
          responseTimeoutRef := some s.nextTimerId
          nextTimerId := s.nextTimerId + 1 }, true) := by
  simp [sendMessage, h, setMessage]

/-- `clearTimeout` on an id that is not pending is a no-op. -/
lemma clearTimeout_of_forall_ne (id : Nat) (l : List (Nat × Nat))
    (h : ∀ p ∈ l, p.1 ≠ id) : clearTimeout id l = l :=
  List.eraseP_of_forall_not (fun p hp => by simpa using h p hp)

/-- Clearing a freshly appended timer removes exactly it. -/
lemma clearTimeout_append_fresh (id d : Nat) (l : List (Nat × Nat))
    (h : ∀ p ∈ l, p.1 ≠ id) :
    clearTimeout id (l ++ [(id, d)]) = l := by
  unfold clearTimeout
  rw [List.eraseP_append_right _ (fun p hp => by simpa using h p hp)]
  simp

/-- Firing a timer whose id is nowhere in the pending table does nothing. -/
lemma fireTimeout_of_forall_ne (id : Nat) (s : AppState)
    (h : ∀ p ∈ s.pendingTimers, p.1 ≠ id) : fireTimeout id s = s := by
  have hc : ¬s.pendingTimers.any (fun p => p.1 == id) = true := by
    intro hany
    obtain ⟨p, hp, hb⟩ := List.any_eq_true.mp hany
    exact h p hp (by simpa using hb)
  simp only [fireTimeout]
  rw [if_neg hc]

/-- Firing a pending timer publishes the timeout status. -/
lemma fireTimeout_of_mem (id d : Nat) (s : AppState)
    (h : (id, d) ∈ s.pendingTimers) :
    fireTimeout id s =
      setMessage "No response from server yet. Check backend logs."
        { s with pendingTimers := clearTimeout id s.pendingTimers } := by
  unfold fireTimeout
  rw [if_pos (List.any_eq_true.mpr ⟨(id, d), h, by simp⟩)]

/-- After `clearTimeout id` on a table with pairwise distinct ids, no pair
with that id remains. -/
lemma not_mem_clearTimeout (id : Nat) (l : List (Nat × Nat))
    (h : (l.map Prod.fst).Nodup) (d : Nat) : (id, d) ∉ clearTimeout id l := by
  induction l with
  | nil => simp [clearTimeout]
  | cons a tl ih =>
      rw [List.map_cons, List.nodup_cons] at h
      unfold clearTimeout
      rw [List.eraseP_cons]
      by_cases ha : a.1 = id
      · simp only [ha, beq_self_eq_true, cond_true]
        intro hmem
        exact h.1 (ha ▸ List.mem_map.mpr ⟨(id, d), hmem, rfl⟩)
      · simp only [beq_eq_false_iff_ne.mpr ha, cond_false, List.mem_cons]
        rintro (rfl | hmem)
        · exact ha rfl
        · exact ih h.2 hmem

end VehicleApp

namespace VehicleApp

/-! ### Arithmetic of the progress percentage -/

lemma rat_shift (l t : Nat) (h : 0 < t) :
    (l : ℚ) / t * 100 + 1 / 2 = ((200 * l + t : ℕ) : ℚ) / ((2 * t : ℕ) : ℚ) := by
  have ht : (t : ℚ) ≠ 0 := (Nat.cast_pos.mpr h).ne'
  push_cast
  field_simp
  ring

/-- `Math.round((l / t) * 100)` as exact natural-number arithmetic:
`⌊100·l/t + 1/2⌋ = (200·l + t) / (2·t)` with flooring division. -/
lemma jsRound_div (l t : Nat) (h : 0 < t) :
    jsRound ((l : ℚ) / t * 100) = (((200 * l + t) / (2 * t) : ℕ) : ℤ) := by
  unfold jsRound
  rw [rat_shift l t h, Rat.floor_natCast_div_natCast, ← Int.natCast_div]

lemma uploadPercent_eq (l t : Nat) (h : 0 < t) :
    uploadPercent l t = ((min 100 ((200 * l + t) / (2 * t)) : ℕ) : ℤ) := by
  unfold uploadPercent
  rw [jsRound_div l t h, Nat.cast_min]
  norm_num

lemma uploadPercent_nonneg (l t : Nat) (h : 0 < t) : 0 ≤ uploadPercent l t := by
  rw [uploadPercent_eq l t h]
  exact Int.natCast_nonneg _

lemma uploadPercent_le_100 (l t : Nat) : uploadPercent l t ≤ 100 :=
  min_le_left _ _

lemma uploadPercent_25 : uploadPercent 250000 1000000 = 25 := by
  rw [uploadPercent_eq 250000 1000000 (by norm_num)]
  decide

lemma uploadPercent_50 : uploadPercent 500000 1000000 = 50 := by
  rw [uploadPercent_eq 500000 1000000 (by norm_num)]
  decide

lemma uploadPercent_100 : uploadPercent 1000000 1000000 = 100 := by
  rw [uploadPercent_eq 1000000 1000000 (by norm_num)]
  decide

/-- The source formula `Math.min(100, Math.round((loaded/total) * 100))`
agrees with the specification formula `round(min(1, loaded/total) * 100)`
whenever the total is positive. -/
lemma uploadPercent_eq_specPercent (l t : Nat) (h : 0 < t) :
    uploadPercent l t = specPercent l t := by
  have ht : (0 : ℚ) < t := by exact_mod_cast h
  unfold uploadPercent specPercent jsRound
  by_cases hlt : l < t
  · have hle : (l : ℚ) / t ≤ 1 := by
      rw [div_le_one ht]
      exact_mod_cast hlt.le
    rw [min_eq_right hle, min_eq_right]
    have h1 : (l : ℚ) / t * 100 + 1 / 2 < ((101 : ℤ) : ℚ) := by
      have h2 : (l : ℚ) / t * 100 ≤ 100 := by nlinarith
      push_cast
      linarith
    have h3 := Int.floor_lt.mpr h1
    omega
  · have hge : (1 : ℚ) ≤ (l : ℚ) / t := by
      rw [one_le_div ht]
      exact_mod_cast Nat.le_of_not_lt hlt
    rw [min_eq_left hge]
    have hfloor : ⌊(1 : ℚ) * 100 + 1 / 2⌋ = 100 := by
      rw [Int.floor_eq_iff]
      norm_num
    rw [hfloor, min_eq_left]
    have : ((100 : ℤ) : ℚ) ≤ (l : ℚ) / t * 100 + 1 / 2 := by nlinarith
    exact Int.le_floor.mpr this

end VehicleApp

namespace VehicleApp

/-! ### Claim C10 -/

/-- Claim C10: a file-selection event that carries no file returns without
changing any observable state — preview, status string, result text and any
pending timer are untouched, and no upload is started. -/
theorem claim_C10 (run : UploadRun) (s : AppState) :
    processImage none run s = s := rfl

/-! ### Claim C9 -/

/-- Claim C9: when the upload of a Session fails, the published status is
`"Upload is failed"`, no notification is ever sent over the channel for that
Session, and no result timer is started. -/
theorem claim_C9 (file : JsFile) (events : List (Option Nat × Option Nat))
    (s : AppState) :
    (processImage (some file) { events := events, succeeds := false } s).message
        = "Upload is failed" ∧
    (processImage (some file) { events := events, succeeds := false } s).sent
        = s.sent ∧
    (processImage (some file) { events := events, succeeds := false } s).pendingTimers
        = s.pendingTimers ∧
    (processImage (some file) { events := events, succeeds := false } s).responseTimeoutRef
        = s.responseTimeoutRef := by
  simp only [processImage, uploadFileToS3, Bool.false_eq_true, if_false]
  refine ⟨rfl, ?_, ?_, ?_⟩
  · rw [setMessage_sent, (progressFold_core file.size events _).2.2.1]
    rfl
  · rw [setMessage_pendingTimers, (progressFold_core file.size events _).1]
    rfl
  · rw [setMessage_responseTimeoutRef, (progressFold_core file.size events _).2.1]
    rfl

/-! ### Claim C7 -/

/-- Claim C7: attempting to send the notification while the channel is not
in the Connected (OPEN) state fails: `ws.send` is not called, one of the two
not-ready statuses is published, no result timer is started, and the Session
never reaches the awaiting-result wait. -/
theorem claim_C7 (s : AppState) (name : String)
    (h : s.wsState ≠ some ReadyState.opened) :
    (sendMessage name s).2 = false ∧
    (sendMessage name s).1.pendingTimers = s.pendingTimers ∧
    (sendMessage name s).1.responseTimeoutRef = s.responseTimeoutRef ∧
    (sendMessage name s).1.sent = s.sent ∧
    ((sendMessage name s).1.message = "WebSocket is not connected" ∨
      (sendMessage name s).1.message
        = "WebSocket not ready yet. Please try again in a moment") := by
  cases hws : s.wsState with
  | none => simp [sendMessage, hws, setMessage]
  | some rs =>
      have hne : ¬rs = ReadyState.opened := fun hr => h (hr ▸ hws)
      simp [sendMessage, hws, hne, setMessage]

/-- Witness for C7 at a concrete input: the component before the socket
object exists. -/
theorem claim_C7_witness :
    (sendMessage "car.jpg" initialState).2 = false ∧
    (sendMessage "car.jpg" initialState).1.pendingTimers
        = initialState.pendingTimers ∧
    (sendMessage "car.jpg" initialState).1.responseTimeoutRef
        = initialState.responseTimeoutRef ∧
    (sendMessage "car.jpg" initialState).1.sent = initialState.sent ∧
    ((sendMessage "car.jpg" initialState).1.message
        = "WebSocket is not connected" ∨
      (sendMessage "car.jpg" initialState).1.message
        = "WebSocket not ready yet. Please try again in a moment") :=
  claim_C7 initialState "car.jpg" (by decide)

/-! ### Claim C8 -/

/-- Claim C8: a valid inbound frame `{"message":"XYZ123"}` arriving while the
Session is awaiting its result completes the Session: the status becomes
`"Completed"`, the published result is exactly `"Number plate: XYZ123"`, and
the pending timer is cancelled (the ref is nulled and the referenced timer
leaves the pending table). -/
theorem claim_C8 (s : AppState) (id : Nat)
    (href : s.responseTimeoutRef = some id)
    (hids : (s.pendingTimers.map Prod.fst).Nodup) :
    (wsOnmessage (.parsed (some "XYZ123")) s).message = "Completed" ∧
    (wsOnmessage (.parsed (some "XYZ123")) s).numberPlate
        = "Number plate: XYZ123" ∧
    (wsOnmessage (.parsed (some "XYZ123")) s).responseTimeoutRef = none ∧
    ∀ d, (id, d) ∉ (wsOnmessage (.parsed (some "XYZ123")) s).pendingTimers := by
  simp only [wsOnmessage, href]
  exact ⟨rfl, rfl, rfl, fun d => not_mem_clearTimeout id s.pendingTimers hids d⟩

/-- Witness for C8 at a concrete input: the one-timer awaiting state. -/
theorem claim_C8_witness :
    (wsOnmessage (.parsed (some "XYZ123")) awaitingState).message
        = "Completed" ∧
    (wsOnmessage (.parsed (some "XYZ123")) awaitingState).numberPlate
        = "Number plate: XYZ123" ∧
    (wsOnmessage (.parsed (some "XYZ123")) awaitingState).responseTimeoutRef
        = none ∧
    (0, responseTimeoutMs) ∉
      (wsOnmessage (.parsed (some "XYZ123")) awaitingState).pendingTimers := by
  obtain ⟨h1, h2, h3, h4⟩ := claim_C8 awaitingState 0 (by decide) (by decide)
  exact ⟨h1, h2, h3, h4 responseTimeoutMs⟩

/-! ### Claim C4 -/

/-- Claim C4 counterexample: in the concrete awaiting state (timer 0
pending, ref set), the channel error handler leaves the 15 000 ms timer
pending and the ref intact, and the channel close handler does not even
change the status string — refuting the claim that an error or close event
cancels the pending timer and fails the Session. -/
theorem claim_C4_counterexample :
    awaitingState.pendingTimers = [(0, responseTimeoutMs)] ∧
    (wsOnerror awaitingState).pendingTimers = [(0, responseTimeoutMs)] ∧
    (wsOnerror awaitingState).responseTimeoutRef = some 0 ∧
    (wsOnclose awaitingState).message = awaitingState.message ∧
    (wsOnclose awaitingState).pendingTimers = [(0, responseTimeoutMs)] := by
  decide

/-- Claim C4 as amended: while a Session awaits its result, a channel error
event publishes the status `"WebSocket error while processing image"` and
turns the indicator red but does not cancel the pending 15 000 ms timer; a
channel close event only turns the indicator grey; neither event cancels the
timer or otherwise terminates the wait. -/
theorem claim_C4 (s : AppState) :
    (wsOnerror s).pendingTimers = s.pendingTimers ∧
    (wsOnerror s).responseTimeoutRef = s.responseTimeoutRef ∧
    (wsOnerror s).message = "WebSocket error while processing image" ∧
    (wsOnerror s).socketStatusColour = "red" ∧
    (wsOnclose s).pendingTimers = s.pendingTimers ∧
    (wsOnclose s).responseTimeoutRef = s.responseTimeoutRef ∧
    (wsOnclose s).message = s.message ∧
    (wsOnclose s).socketStatusColour = "grey" :=
  ⟨rfl, rfl, rfl, rfl, rfl, rfl, rfl, rfl⟩

/-! ### Claim C2 -/

/-- Claim C2 counterexample: in the concrete awaiting state, a frame that
fails JSON parsing empties the pending-timer table and nulls the ref (the
handler clears the timer before parsing), and a well-formed frame lacking
the `message` field is not dropped at all: it publishes `"Completed"` and
result `"Number plate: undefined"` — refuting the claim that such frames
leave the Session state (timer included) unaffected. -/
theorem claim_C2_counterexample :
    awaitingState.pendingTimers = [(0, responseTimeoutMs)] ∧
    (wsOnmessage .parseError awaitingState).pendingTimers = [] ∧
    (wsOnmessage .parseError awaitingState).responseTimeoutRef = none ∧
    (wsOnmessage (.parsed none) awaitingState).message = "Completed" ∧
    (wsOnmessage (.parsed none) awaitingState).numberPlate
        = "Number plate: undefined" := by
  decide

/-- Claim C2 as amended: a frame that fails to parse as JSON is dropped
without touching the status string, the result text or the sent log, but the
pending result timer is cancelled first (the handler clears it before
parsing); a frame that parses as JSON but lacks the `message` field is not
dropped: it completes the wait with status `"Completed"` and result text
`"Number plate: undefined"`. -/
theorem claim_C2 (s : AppState) :
    (wsOnmessage .parseError s).message = s.message ∧
    (wsOnmessage .parseError s).numberPlate = s.numberPlate ∧
    (wsOnmessage .parseError s).sent = s.sent ∧
    (wsOnmessage .parseError s).responseTimeoutRef = none ∧
    (wsOnmessage (.parsed none) s).message = "Completed" ∧
    (wsOnmessage (.parsed none) s).numberPlate
        = "Number plate: undefined" := by
  cases href : s.responseTimeoutRef <;>
    simp [wsOnmessage, href, setMessage, jsFieldString]

end VehicleApp

namespace VehicleApp

/-! ### Claim C5 -/

/-- Claim C5 counterexample: a regressing `loaded` counter (500 000 bytes
then 250 000 bytes of a 1 000 000-byte total) makes the handler publish
`"Uploading... 50%"` followed by `"Uploading... 25%"` — the emitted
percentage sequence `[50, 25]` is not non-decreasing, refuting the claimed
monotonicity guarantee. -/
theorem claim_C5_counterexample :
    emittedPercents 1000000
        [(some 500000, some 1000000), (some 250000, some 1000000)]
      = [50, 25] ∧
    ¬ List.Chain' (· ≤ ·)
        (emittedPercents 1000000
          [(some 500000, some 1000000), (some 250000, some 1000000)]) ∧
    ((uploadFileToS3 { name := "car.jpg", size := 1000000 }
        { events := [(some 500000, some 1000000), (some 250000, some 1000000)],
          succeeds := true } initialState).1).published
      = ["Uploading... 0%", "Uploading... 50%", "Uploading... 25%",
         "Upload is done"] := by
  have h0 : emittedPercents 1000000
      [(some 500000, some 1000000), (some 250000, some 1000000)]
      = [uploadPercent 500000 1000000, uploadPercent 250000 1000000] := by
    norm_num [emittedPercents, List.filterMap_cons, List.filterMap_nil, jsOrNat]
  have h1 : emittedPercents 1000000
      [(some 500000, some 1000000), (some 250000, some 1000000)] = [50, 25] := by
    rw [h0, uploadPercent_50, uploadPercent_25]
  refine ⟨h1, ?_, ?_⟩
  · rw [h1]
    norm_num [List.chain'_cons]
  · norm_num [uploadFileToS3, List.foldl, onUploadProgress, jsOrNat, setMessage,
      initialState]
    rw [uploadPercent_50, uploadPercent_25]
    decide

/-- Claim C5 as amended: every percentage the progress handler publishes
lies in [0, 100], and when the resolved total (the event's total, falling
back to the file size) is zero the handler publishes the indeterminate
`"Uploading..."` instead of a percentage; but the published sequence is not
forced to be non-decreasing — each event's percentage is computed from the
raw counters alone, so a regressing `loaded` value produces a lower
percentage. -/
theorem claim_C5 (fs : Nat) (loadedField totalField : Option Nat)
    (s : AppState) :
    (jsOrNat totalField fs = 0 →
      (onUploadProgress fs loadedField totalField s).message = "Uploading...") ∧
    (0 < jsOrNat totalField fs →
      ∃ p : ℤ, 0 ≤ p ∧ p ≤ 100 ∧
        (onUploadProgress fs loadedField totalField s).message
          = "Uploading... " ++ toString p ++ "%" ∧
        p = uploadPercent (jsOrNat loadedField 0) (jsOrNat totalField fs)) := by
  constructor
  · intro h0
    simp only [onUploadProgress]
    rw [if_neg (by omega)]
    rfl
  · intro hpos
    refine ⟨uploadPercent (jsOrNat loadedField 0) (jsOrNat totalField fs),
      uploadPercent_nonneg _ _ hpos, uploadPercent_le_100 _ _, ?_, rfl⟩
    simp only [onUploadProgress]
    rw [if_pos hpos]
    rfl

/-- Witness for C5 at concrete inputs: a zero-size file with an unknown
total publishes the indeterminate status, and a 250 000 / 1 000 000 event
publishes a bounded percentage. -/
theorem claim_C5_witness :
    (onUploadProgress 0 (some 5) none initialState).message = "Uploading..." ∧
    ∃ p : ℤ, 0 ≤ p ∧ p ≤ 100 ∧
      (onUploadProgress 1000000 (some 250000) (some 1000000)
          initialState).message = "Uploading... " ++ toString p ++ "%" ∧
      p = uploadPercent (jsOrNat (some 250000) 0)
            (jsOrNat (some 1000000) 1000000) :=
  ⟨(claim_C5 0 (some 5) none initialState).1 (by decide),
   (claim_C5 1000000 (some 250000) (some 1000000) initialState).2 (by decide)⟩

/-! ### Claim C6 -/

/-- Claim C6: for total > 0 the handler's percentage
`Math.min(100, Math.round((loaded/total)*100))` equals the specification's
`round(min(1, loaded/total) * 100)`, and in particular a 1 000 000-byte file
with loaded values 250 000, 500 000, 1 000 000 publishes exactly the
statuses `"Uploading... 25%"`, `"Uploading... 50%"`, `"Uploading... 100%"`
in order. -/
theorem claim_C6 :
    (∀ loaded total : Nat, 0 < total →
        uploadPercent loaded total = specPercent loaded total) ∧
    ((uploadFileToS3 { name := "car.jpg", size := 1000000 }
        { events := [(some 250000, some 1000000), (some 500000, some 1000000),
            (some 1000000, some 1000000)],
          succeeds := true } initialState).1).published
      = ["Uploading... 0%", "Uploading... 25%", "Uploading... 50%",
         "Uploading... 100%", "Upload is done"] := by
  constructor
  · exact fun l t h => uploadPercent_eq_specPercent l t h
  · norm_num [uploadFileToS3, List.foldl, onUploadProgress, jsOrNat, setMessage,
      initialState]
    rw [uploadPercent_25, uploadPercent_50, uploadPercent_100]
    decide

/-- Witness for C6 at a concrete input. -/
theorem claim_C6_witness :
    0 < 1000000 ∧ uploadPercent 250000 1000000 = specPercent 250000 1000000 :=
  ⟨by norm_num, claim_C6.1 250000 1000000 (by norm_num)⟩

end VehicleApp

namespace VehicleApp

/-! ### Supersession: claims C1 and C3 -/

/-- `sendMessage` never removes pending timers: it appends at most one. -/
lemma sendMessage_pendingTimers_mono (name : String) (s : AppState) :
    ∃ tl, (sendMessage name s).1.pendingTimers = s.pendingTimers ++ tl := by
  cases hws : s.wsState with
  | none => exact ⟨[], by simp [sendMessage, hws, setMessage]⟩
  | some rs =>
      by_cases hr : rs = ReadyState.opened
      · exact ⟨[(s.nextTimerId, responseTimeoutMs)],
          by simp [sendMessage, hws, hr, setMessage]⟩
      · exact ⟨[], by simp [sendMessage, hws, hr, setMessage]⟩

/-- `processImage` never cancels a timer that was pending when the new file
was selected: the pending table only grows. -/
lemma processImage_pendingTimers_mono (file : JsFile) (run : UploadRun)
    (s : AppState) :
    ∃ tl, (processImage (some file) run s).pendingTimers
      = s.pendingTimers ++ tl := by
  cases hrs : run.succeeds with
  | false =>
      refine ⟨[], ?_⟩
      simp only [processImage, uploadFileToS3, hrs, Bool.false_eq_true,
        if_false, List.append_nil]
      rw [setMessage_pendingTimers, (progressFold_core file.size run.events _).1]
      rfl
  | true =>
      simp only [processImage, uploadFileToS3, hrs, if_true]
      obtain ⟨tl, htl⟩ := sendMessage_pendingTimers_mono file.name
        (setMessage "Upload is done"
          (run.events.foldl (fun st e => onUploadProgress file.size e.1 e.2 st)
            (setMessage "Uploading... 0%"
              (setMessage "Uploading... 0%"
                { s with numberPlate := "Number plate: .....",
                         image := some file }))))
      refine ⟨tl, ?_⟩
      rw [htl, setMessage_pendingTimers,
        (progressFold_core file.size run.events _).1]
      rfl

/-- A parsed inbound frame always overwrites `numberPlate` with the frame's
`message` field, with no check of which Session it belongs to. -/
lemma wsOnmessage_parsed_numberPlate (t : String) (s : AppState) :
    (wsOnmessage (.parsed (some t)) s).numberPlate = "Number plate: " ++ t := by
  cases href : s.responseTimeoutRef <;>
    simp [wsOnmessage, href, jsFieldString, setMessage]

/-- Claim C1 counterexample: a concrete run.  The first Session awaits its
result (timer 0 pending, ref = 0); selecting a new file starts a second
Session whose upload succeeds and whose notification is sent.  Timer 0 of
the superseded Session is still pending afterwards, and when it fires it
overwrites the current Session's status string — refuting both the claimed
cancellation and the claimed immunity of the current Session to stale
callbacks. -/
theorem claim_C1_counterexample :
    awaitingState.responseTimeoutRef = some 0 ∧
    (0, responseTimeoutMs) ∈
      (processImage (some { name := "b.jpg", size := 100 })
        { events := [], succeeds := true } awaitingState).pendingTimers ∧
    (fireTimeout 0 (processImage (some { name := "b.jpg", size := 100 })
        { events := [], succeeds := true } awaitingState)).message
      ≠ (processImage (some { name := "b.jpg", size := 100 })
          { events := [], succeeds := true } awaitingState).message ∧
    (fireTimeout 0 (processImage (some { name := "b.jpg", size := 100 })
        { events := [], succeeds := true } awaitingState)).message
      = "No response from server yet. Check backend logs." := by
  decide

/-- Claim C1 as amended: starting a new Session while a previous Session's
15 000 ms timer is pending does NOT cancel that timer — it stays in the
pending table through the whole new `processImage` run — and the superseded
Session's callbacks are applied to the current state without any
session-identity check: the stale timeout overwrites the current status
string, and a stale result frame overwrites the current result text. -/
theorem claim_C1 (s : AppState) (file : JsFile) (run : UploadRun) (id d : Nat)
    (h : (id, d) ∈ s.pendingTimers) :
    (id, d) ∈ (processImage (some file) run s).pendingTimers ∧
    (fireTimeout id (processImage (some file) run s)).message
      = "No response from server yet. Check backend logs." ∧
    (wsOnmessage (.parsed (some "STALE"))
        (processImage (some file) run s)).numberPlate
      = "Number plate: STALE" := by
  obtain ⟨tl, htl⟩ := processImage_pendingTimers_mono file run s
  have hmem : (id, d) ∈ (processImage (some file) run s).pendingTimers := by
    rw [htl]
    exact List.mem_append_left _ h
  refine ⟨hmem, ?_, ?_⟩
  · rw [fireTimeout_of_mem id d _ hmem, setMessage_message]
  · rw [wsOnmessage_parsed_numberPlate]
    decide

/-- Witness for C1 at a concrete input: the one-timer awaiting state. -/
theorem claim_C1_witness :
    (0, responseTimeoutMs) ∈ awaitingState.pendingTimers ∧
    ((0, responseTimeoutMs) ∈
        (processImage (some { name := "b.jpg", size := 100 })
          { events := [], succeeds := true } awaitingState).pendingTimers ∧
      (fireTimeout 0 (processImage (some { name := "b.jpg", size := 100 })
          { events := [], succeeds := true } awaitingState)).message
        = "No response from server yet. Check backend logs." ∧
      (wsOnmessage (.parsed (some "STALE"))
          (processImage (some { name := "b.jpg", size := 100 })
            { events := [], succeeds := true } awaitingState)).numberPlate
        = "Number plate: STALE") :=
  ⟨by decide,
   claim_C1 awaitingState { name := "b.jpg", size := 100 }
     { events := [], succeeds := true } 0 responseTimeoutMs (by decide)⟩

/-! ### Claim C3 -/

/-- Claim C3 counterexample: the status the timeout callback actually
publishes is `"No response from server yet. Check backend logs."`, not the
exact string `"No response from server yet."` the claim states. -/
theorem claim_C3_counterexample :
    (fireTimeout 0 awaitingState).message
      = "No response from server yet. Check backend logs." ∧
    (fireTimeout 0 awaitingState).message ≠ "No response from server yet." := by
  decide

/-- Firing a timer twice is the same as firing it once, provided its id is
gone from the pending table after the first clear. -/
lemma fireTimeout_twice (id : Nat) (s : AppState)
    (h : ∀ p ∈ clearTimeout id s.pendingTimers, p.1 ≠ id) :
    fireTimeout id (fireTimeout id s) = fireTimeout id s := by
  by_cases hpend : s.pendingTimers.any (fun p => p.1 == id) = true
  · have h1 : fireTimeout id s
        = setMessage "No response from server yet. Check backend logs."
            { s with pendingTimers := clearTimeout id s.pendingTimers } := by
      unfold fireTimeout
      rw [if_pos hpend]
    rw [h1]
    apply fireTimeout_of_forall_ne
    intro p hp
    rw [setMessage_pendingTimers] at hp
    exact h p hp
  · have h1 : fireTimeout id s = s := by
      unfold fireTimeout
      rw [if_neg hpend]
    rw [h1, h1]

/-- Claim C3 as amended: after a successful send, the 15 000 ms timer is
pending and referenced (no silent hang); if no inbound frame arrives, the
timer fires, publishing `"No response from server yet. Check backend
logs."`, and it fires exactly once — a second firing of the same timer
changes nothing. -/
theorem claim_C3 (s : AppState) (name : String) (hwf : TimersWf s)
    (hws : s.wsState = some ReadyState.opened) :
    (sendMessage name s).2 = true ∧
    (s.nextTimerId, responseTimeoutMs) ∈ (sendMessage name s).1.pendingTimers ∧
    (sendMessage name s).1.responseTimeoutRef = some s.nextTimerId ∧
    (fireTimeout s.nextTimerId (sendMessage name s).1).message
      = "No response from server yet. Check backend logs." ∧
    fireTimeout s.nextTimerId (fireTimeout s.nextTimerId (sendMessage name s).1)
      = fireTimeout s.nextTimerId (sendMessage name s).1 := by
  have hfresh : ∀ p ∈ s.pendingTimers, p.1 ≠ s.nextTimerId :=
    fun p hp => Nat.ne_of_lt (hwf p hp)
  rw [sendMessage_opened name s hws]
  have hmem : (s.nextTimerId, responseTimeoutMs) ∈
      s.pendingTimers ++ [(s.nextTimerId, responseTimeoutMs)] :=
    List.mem_append_right _ (List.mem_singleton.mpr rfl)
  refine ⟨rfl, hmem, rfl, ?_, ?_⟩
  · rw [fireTimeout_of_mem s.nextTimerId responseTimeoutMs _ hmem,
      setMessage_message]
  · apply fireTimeout_twice
    intro p hp
    refine hfresh p ?_
    rw [← clearTimeout_append_fresh s.nextTimerId responseTimeoutMs
      s.pendingTimers hfresh]
    exact hp

/-- Witness for C3 at a concrete input: sending from the open-socket state. -/
theorem claim_C3_witness :
    (sendMessage "car.jpg" openState).2 = true ∧
    (openState.nextTimerId, responseTimeoutMs) ∈
      (sendMessage "car.jpg" openState).1.pendingTimers ∧
    (sendMessage "car.jpg" openState).1.responseTimeoutRef
      = some openState.nextTimerId ∧
    (fireTimeout openState.nextTimerId
        (sendMessage "car.jpg" openState).1).message
      = "No response from server yet. Check backend logs." ∧
    fireTimeout openState.nextTimerId
        (fireTimeout openState.nextTimerId (sendMessage "car.jpg" openState).1)
      = fireTimeout openState.nextTimerId (sendMessage "car.jpg" openState).1 :=
  claim_C3 openState "car.jpg" (by decide) rfl

end VehicleApp
